import Mathlib

/-!
Shallow embedding of the acquisition-and-resolution core of the
noriskclient-launcher repository, covering
`src/src-tauri/src/minecraft/version.rs` and
`src/src-tauri/src/app/app_data.rs`.

Conventions of the embedding:
* Rust `Option<T>` is `Option T`, `Vec<T>` is `List T`,
  `HashMap<K, V>` is `List (K × V)` (association list),
  `String` is `String`, `i32`/`i64` are `Int`.
* Fallible Rust code (`Result<T>`) is `Except LauncherError T`.
* Methods taking `&mut self` are modelled as functions returning the
  new value of `self` (paired with the `Result` value, so that the
  state after a failed call is still observable, exactly as it is for
  the caller of a `&mut self` method in Rust).
* Filesystem and network interactions of the download pipeline are
  modelled by explicit state records; a stored file is represented by
  the SHA-1 digest of its content, since the code only ever inspects
  files through `sha1sum`.
-/

namespace Launcher

/-- `LauncherError` from `crate::error`; only the variant used by
`version.rs` is needed. -/
inductive LauncherError where
  | InvalidVersionProfile (msg : String)
deriving DecidableEq, Repr

/-! ## Data model (`version.rs` lines 46-67, 120-127, 193-235, 292-326, 412-520) -/

/-- `AssetIndexLocation` (version.rs lines 292-300). -/
structure AssetIndexLocation where
  id : String
  sha1 : String
  size : Int
  total_size : Int
  url : String
deriving DecidableEq, Repr

/-- `Download` (version.rs lines 422-427). -/
structure Download where
  sha1 : String
  size : Int
  url : String
deriving DecidableEq, Repr

/-- `Downloads` (version.rs lines 412-419). -/
structure Downloads where
  client : Option Download
  client_mappings : Option Download
  server : Option Download
  server_mappings : Option Download
  windows_server : Option Download
deriving DecidableEq, Repr

/-- `Architecture` from `crate::utils` is an enum of architecture names
compared by equality; its source file is outside `src/`, so it is kept
abstract as a string identifier. -/
abbrev Architecture := String

/-- `RuleAction` (version.rs lines 481-487). -/
inductive RuleAction where
  | Allow
  | Disallow
deriving DecidableEq, Repr

/-- `OsRule` (version.rs lines 474-479). -/
structure OsRule where
  name : Option String
  version : Option String
  arch : Option Architecture
deriving DecidableEq, Repr

/-- `Rule` (version.rs lines 467-472). -/
structure Rule where
  action : RuleAction
  os : Option OsRule
  features : Option (List (String × Bool))
deriving DecidableEq, Repr

/-- `LibraryArtifact` (version.rs lines 495-501). -/
structure LibraryArtifact where
  path : String
  sha1 : String
  size : Int
  url : String
deriving DecidableEq, Repr

/-- `LibraryDownloads` (version.rs lines 489-493). -/
structure LibraryDownloads where
  artifact : Option LibraryArtifact
  classifiers : Option (List (String × LibraryArtifact))
deriving DecidableEq, Repr

/-- `Library` (version.rs lines 437-445). -/
structure Library where
  name : String
  downloads : Option LibraryDownloads
  natives : Option (List (String × String))
  rules : List Rule
  url : Option String
deriving DecidableEq, Repr

/-- `Logging` (version.rs lines 608-611): an empty placeholder struct. -/
inductive Logging where
  | mk
deriving DecidableEq, Repr

/-- `ArgumentValue` (version.rs lines 230-235): untagged union of a single
token and a token list. -/
inductive ArgumentValue where
  | SINGLE (s : String)
  | VEC (xs : List String)
deriving DecidableEq, Repr

/-- `Argument` (version.rs lines 224-228). -/
structure Argument where
  rules : Option (List Rule)
  value : ArgumentValue
deriving DecidableEq, Repr

/-- `Arguments` (version.rs lines 214-222). -/
structure Arguments where
  game : List Argument
  jvm : List Argument
deriving DecidableEq, Repr

/-- `V14ArgumentDeclaration` (version.rs lines 193-197). -/
structure V14ArgumentDeclaration where
  minecraft_arguments : Option String
deriving DecidableEq, Repr

/-- `V21ArgumentDeclaration` (version.rs lines 199-202). -/
structure V21ArgumentDeclaration where
  arguments : Arguments
deriving DecidableEq, Repr

/-- `ArgumentDeclaration` (version.rs lines 120-127): the two historical
argument-schema variants. -/
inductive ArgumentDeclaration where
  | V21 (decl : V21ArgumentDeclaration)
  | V14 (decl : V14ArgumentDeclaration)
deriving DecidableEq, Repr

/-- `VersionProfile` (version.rs lines 46-67). -/
structure VersionProfile where
  id : String
  asset_index_location : Option AssetIndexLocation
  assets : Option String
  inherits_from : Option String
  minimum_launcher_version : Option Int
  downloads : Option Downloads
  compliance_level : Option Int
  libraries : List Library
  main_class : Option String
  logging : Option Logging
  version_type : String
  arguments : ArgumentDeclaration
deriving DecidableEq, Repr

namespace VersionProfile

/-- `VersionProfile::merge_options` (version.rs lines 103-107):
`if !a.is_some() { *a = b; }`. -/
def merge_options {T : Type} (a b : Option T) : Option T :=
  if a.isSome then a else b

/-- `VersionProfile::merge_larger` (version.rs lines 109-117):
when both sides are present, the child keeps its value unless the
parent's is strictly larger; otherwise an absent child adopts the
parent's side. -/
def merge_larger {T : Type} [LinearOrder T] (a b : Option T) : Option T :=
  match a, b with
  | some val_a, some val_b => if val_a < val_b then b else a
  | some _, none => a
  | none, _ => b

/-- `VersionProfile::merge` (version.rs lines 70-101). The Rust method
takes `&mut self` and returns `Result<()>`; the embedding returns the
result together with the state of `self` afterwards. All non-argument
fields are merged first; the argument-schema variant check happens
last, so its failure leaves the earlier field merges applied. -/
def merge (self : VersionProfile) (parent : VersionProfile) :
    Except LauncherError Unit × VersionProfile :=
  let s1 : VersionProfile := { self with
    asset_index_location := merge_options self.asset_index_location parent.asset_index_location
    assets := merge_options self.assets parent.assets
    minimum_launcher_version :=
      merge_larger self.minimum_launcher_version parent.minimum_launcher_version
    downloads := merge_options self.downloads parent.downloads
    compliance_level := merge_larger self.compliance_level parent.compliance_level
    libraries := self.libraries ++ parent.libraries
    main_class := merge_options self.main_class parent.main_class
    logging := merge_options self.logging parent.logging }
  match s1.arguments, parent.arguments with
  | ArgumentDeclaration.V14 v14_a, ArgumentDeclaration.V14 v14_b =>
      (Except.ok (),
        { s1 with
          arguments := ArgumentDeclaration.V14 (V14ArgumentDeclaration.mk
            (merge_options v14_a.minecraft_arguments v14_b.minecraft_arguments)) })
  | ArgumentDeclaration.V21 v21_a, ArgumentDeclaration.V21 v21_b =>
      (Except.ok (),
        { s1 with
          arguments := ArgumentDeclaration.V21 (V21ArgumentDeclaration.mk
            (Arguments.mk (v21_a.arguments.game ++ v21_b.arguments.game)
              (v21_a.arguments.jvm ++ v21_b.arguments.jvm))) })
  | ArgumentDeclaration.V14 _, ArgumentDeclaration.V21 _ =>
      (Except.error (LauncherError.InvalidVersionProfile
        "version profile inherits from incompatible profile"), s1)
  | ArgumentDeclaration.V21 _, ArgumentDeclaration.V14 _ =>
      (Except.error (LauncherError.InvalidVersionProfile
        "version profile inherits from incompatible profile"), s1)

end VersionProfile

/-! ## Concrete profiles used to evaluate the merge operation -/

/-- A minimal Legacy-variant (V14) child profile declaring a parent. -/
def childV14 : VersionProfile :=
  { id := "1.8.9-custom"
    asset_index_location := none
    assets := none
    inherits_from := some "1.8.9"
    minimum_launcher_version := none
    downloads := none
    compliance_level := none
    libraries := []
    main_class := none
    logging := none
    version_type := "release"
    arguments := ArgumentDeclaration.V14 ⟨some "--demo"⟩ }

/-- A Structured-variant (V21) parent profile carrying an assets tag the
child lacks. -/
def parentV21 : VersionProfile :=
  { id := "1.8.9"
    asset_index_location := none
    assets := some "1.8"
    inherits_from := none
    minimum_launcher_version := some 7
    downloads := none
    compliance_level := none
    libraries := []
    main_class := some "net.minecraft.client.main.Main"
    logging := none
    version_type := "release"
    arguments := ArgumentDeclaration.V21 ⟨⟨[], []⟩⟩ }

/-! ## Asset objects (`version.rs` lines 322-350)

`AssetObject::download` works on the content-addressed store location
`store-root/hash[0:2]/hash`. The embedding represents that one location:
`dirExists` is whether the `hash[0:2]` shard directory exists, and `file`
is the SHA-1 digest of the file stored there (`none` when the file is
absent). `remoteContent` is the digest of the bytes the content-addressed
endpoint serves. The Rust method inspects only `asset_path.exists()`; it
never calls `sha1sum`. -/

/-- `AssetObject` (version.rs lines 322-326). -/
structure AssetObject where
  hash : String
  size : Int
deriving DecidableEq, Repr

/-- State of the single content-addressed store location an
`AssetObject::download` call touches. -/
structure AssetStore where
  dirExists : Bool
  file : Option String
deriving DecidableEq, Repr

/-- `AssetObject::download` (version.rs lines 329-350): create the shard
directory if missing, then download exactly when the destination file does
not exist; an existing file is returned as-is (`Ok(false)`), with no
checksum computed, and a downloaded file is stored without any
post-download verification. -/
def AssetObject.download (_a : AssetObject) (remoteContent : String)
    (st : AssetStore) : Bool × AssetStore :=
  let st1 := if !st.dirExists then { st with dirExists := true } else st
  if st1.file.isNone then
    (true, { st1 with file := some remoteContent })
  else
    (false, st1)

/-! ## Rule interpreter (spec §4.1) and library resolution (spec §4.4,
`version.rs` lines 447-465)

`crate::minecraft::rule_interpreter` and `crate::utils` are not under
`src/`; their behaviour is modelled from the spec. `Library::get_library_download`
itself is embedded from the source. -/

/-- Modelled from the spec: the host triple the rule interpreter evaluates
OS predicates against ("host OS/arch/version", §4.1). -/
structure Host where
  osName : String
  osVersion : String
  arch : Architecture
deriving DecidableEq, Repr

/-- Modelled from the spec: an OS predicate "matches `host` by exact
name/arch equality and version equality-or-absence" (§4.1); an absent
component imposes no constraint. -/
def osRuleMatches (o : OsRule) (host : Host) : Bool :=
  o.name.all (fun n => n == host.osName) &&
  o.version.all (fun v => v == host.osVersion) &&
  o.arch.all (fun a => a == host.arch)

/-- Modelled from the spec: "every feature predicate matches the
corresponding membership/absence in `features`" (§4.1): each required
boolean must equal whether the feature name is enabled. -/
def featuresMatch (req : List (String × Bool)) (features : List String) : Bool :=
  req.all (fun kv => features.contains kv.1 == kv.2)

/-- Modelled from the spec: a rule matches when its OS predicate (if
present) matches the host and every feature predicate (if present)
matches the enabled-feature set (§4.1). -/
def ruleMatches (r : Rule) (host : Host) (features : List String) : Bool :=
  r.os.all (fun o => osRuleMatches o host) &&
  r.features.all (fun req => featuresMatch req features)

/-- Modelled from the spec: `rule_interpreter::check_condition`
(rule_interpreter.rs is not under `src/`): result starts as "rules is
empty"; each rule whose predicates match overwrites the result with
(action == Allow); the last matching rule wins (§4.1). -/
def check_condition (rules : List Rule) (host : Host) (features : List String) : Bool :=
  rules.foldl
    (fun acc r =>
      if ruleMatches r host features then r.action == RuleAction.Allow else acc)
    rules.isEmpty

/-- `LibraryDownloadInfo` (version.rs lines 503-509). -/
structure LibraryDownloadInfo where
  path : String
  sha1 : Option String
  size : Option Int
  url : String
deriving DecidableEq, Repr

/-- `From<&LibraryArtifact> for LibraryDownloadInfo` (version.rs lines
511-520): explicit artifact metadata carried over verbatim. -/
def LibraryArtifact.toInfo (artifact : LibraryArtifact) : LibraryDownloadInfo :=
  { path := artifact.path
    sha1 := some artifact.sha1
    size := some artifact.size
    url := artifact.url }

/-- Splits a character list at every occurrence of `sep`, keeping empty
segments; mirrors Rust `str::split` with a single-character pattern. -/
def splitChars (sep : Char) : List Char → List (List Char)
  | [] => [[]]
  | c :: rest =>
    match splitChars sep rest with
    | [] => [[]]
    | g :: gs => if c = sep then [] :: g :: gs else (c :: g) :: gs

/-- String-level split on a single separator character (Rust
`str::split(sep)` semantics: empty tokens between, before and after
separators are kept). -/
def splitStr (sep : Char) (s : String) : List String :=
  (splitChars sep s.data).map String.mk

/-- Joins strings with a separator (Rust `[..].join(sep)` semantics). -/
def joinSep (sep : String) : List String → String
  | [] => ""
  | [x] => x
  | x :: y :: xs => x ++ sep ++ joinSep sep (y :: xs)

/-- Modelled from the spec: `get_maven_artifact_path` from `crate::utils`
(not under `src/`): "group segments with dots replaced by path separators,
then artifact name, version, and filename `artifact-version.jar`" (§4.4,
§8); a coordinate without exactly three colon-separated parts is
malformed. -/
def get_maven_artifact_path (name : String) : Except LauncherError String :=
  match splitStr ':' name with
  | [g, a, v] =>
      Except.ok (joinSep "/" (splitStr '.' g) ++ "/" ++ a ++ "/" ++ v
        ++ "/" ++ a ++ "-" ++ v ++ ".jar")
  | _ => Except.error (LauncherError.InvalidVersionProfile "invalid maven coordinate")

/-- `Library::get_library_download` (version.rs lines 448-464): explicit
`downloads.artifact` metadata is returned verbatim; otherwise a descriptor
is synthesized from the maven coordinate joined to the declared repository
base or the default public repository, with checksum and size unset. -/
def Library.get_library_download (lib : Library) :
    Except LauncherError LibraryDownloadInfo :=
  match lib.downloads.bind (fun x => x.artifact) with
  | some artifact => Except.ok artifact.toInfo
  | none =>
      match get_maven_artifact_path lib.name with
      | Except.ok path =>
          let url := lib.url.getD "https://libraries.minecraft.net/"
          Except.ok { url := url ++ path, sha1 := none, size := none, path := path }
      | Except.error e => Except.error e

/-- Modelled from the spec: the library resolution driver, which lives
outside `src/` in the launcher module: "if the library's rule list
evaluates to false for host/features, return none (library excluded for
this platform); otherwise" resolve via `get_library_download` (§4.4). -/
def Library.resolve (lib : Library) (host : Host) (features : List String) :
    Option (Except LauncherError LibraryDownloadInfo) :=
  if check_condition lib.rules host features then
    some lib.get_library_download
  else
    none

/-! ## Download & verification pipeline (`version.rs` lines 522-606)

`LibraryDownloadInfo::download` touches, besides the descriptor itself,
one artifact destination and its co-located `.sha1` side-file, and two
remote endpoints (the artifact URL and its `.sha1` sidecar). The state
record `DlState` holds the side-file's content and the digest of the file
at the destination (`none` = absent); `Remote` holds the sidecar response
(`none` models a failed sidecar fetch, which the code degrades to "no
known checksum") and the digest of the bytes served at the artifact URL.
Parent-directory creation (line 540) touches no state the code later
reads and is not represented. -/

/-- Local state of the one destination path and its checksum side-file. -/
structure DlState where
  sidecar : Option String
  destFile : Option String
deriving DecidableEq, Repr

/-- The two remote endpoints involved in one download. -/
structure Remote where
  sidecarResp : Option String
  content : String
deriving DecidableEq, Repr

/-- Outcome of `LibraryDownloadInfo::download`: the two success shapes the
code logs and returns from, plus the fatal bail-out of the post-download
hash check (version.rs line 600). -/
inductive DlOutcome where
  | notDownloaded
  | downloaded
  | checksumMismatch
deriving DecidableEq, Repr

/-- Result of one `download` call: outcome, final local state, and the
number of network requests made against each endpoint. -/
structure DlResult where
  outcome : DlOutcome
  state : DlState
  sha1Fetches : Nat
  artifactFetches : Nat
deriving DecidableEq, Repr

/-- Checksum-determination block of `LibraryDownloadInfo::download`
(version.rs lines 542-566): the embedded checksum if present, else the
local side-file's content, else the sidecar endpoint's response (one
network request; a successful response is persisted to the side-file, a
failure degrades to no known checksum). Returns the resolved checksum,
the state after a possible side-file write, and the sidecar request
count. -/
def LibraryDownloadInfo.resolveSha1 (info : LibraryDownloadInfo)
    (remote : Remote) (st : DlState) : Option String × DlState × Nat :=
  match info.sha1 with
  | some s => (some s, st, 0)
  | none =>
    match st.sidecar with
    | some s => (some s, st, 0)
    | none =>
      match remote.sidecarResp with
      | some s => (some s, { st with sidecar := some s }, 1)
      | none => (none, st, 1)

/-- Download-and-verify tail of `LibraryDownloadInfo::download`
(version.rs lines 590-605): fetch the artifact (one request), then, when
a checksum is known, recompute and compare — a mismatch bails out with
the fatal condition, leaving the freshly written file in place. -/
def downloadAndCheck (remote : Remote) (st : DlState) (sha1 : Option String)
    (fetches : Nat) : DlResult :=
  let st2 := { st with destFile := some remote.content }
  match sha1 with
  | some s =>
      if remote.content = s then
        { outcome := DlOutcome.downloaded, state := st2,
          sha1Fetches := fetches, artifactFetches := 1 }
      else
        { outcome := DlOutcome.checksumMismatch, state := st2,
          sha1Fetches := fetches, artifactFetches := 1 }
  | none =>
      { outcome := DlOutcome.downloaded, state := st2,
        sha1Fetches := fetches, artifactFetches := 1 }

/-- `LibraryDownloadInfo::download` (version.rs lines 532-605): resolve
the expected checksum, then reconcile with an existing destination file —
matching digest returns "not downloaded"; no known checksum trusts the
existing file; a mismatching digest deletes the stale file and proceeds
to the download-and-verify tail, as does an absent destination. -/
def LibraryDownloadInfo.download (info : LibraryDownloadInfo)
    (remote : Remote) (st : DlState) : DlResult :=
  let r := info.resolveSha1 remote st
  let sha1 := r.1
  let st1 := r.2.1
  let fetches := r.2.2
  match st1.destFile, sha1 with
  | some hash, some s =>
      if hash = s then
        { outcome := DlOutcome.notDownloaded, state := st1,
          sha1Fetches := fetches, artifactFetches := 0 }
      else
        downloadAndCheck remote { st1 with destFile := none } (some s) fetches
  | some _, none =>
      { outcome := DlOutcome.notDownloaded, state := st1,
        sha1Fetches := fetches, artifactFetches := 0 }
  | none, s => downloadAndCheck remote st1 s fetches

/-- A descriptor carrying no embedded checksum, as synthesized library
descriptors do. -/
def infoNoSha : LibraryDownloadInfo :=
  ⟨"com/example/foo/1.2.3/foo-1.2.3.jar", none, none,
    "https://libraries.minecraft.net/com/example/foo/1.2.3/foo-1.2.3.jar"⟩

/-! ## Profile-document parsing (`version.rs` lines 204-290)

`VersionProfile::load` propagates network and serde failures to the
caller through `?`. The arguments section, however, goes through the
custom deserializer `vec_argument`, which calls
`Vec::deserialize(deserializer).unwrap()`: a failure there aborts the
process instead of becoming an error. The embedding works on a generic
JSON value type and models the element deserializer `string_or_struct`
(a string becomes a bare token through the infallible `FromStr`
implementation; a map is deserialized structurally). -/

/-- A JSON document value. -/
inductive Json where
  | null
  | bool (b : Bool)
  | num (n : Int)
  | str (s : String)
  | arr (elems : List Json)
  | obj (fields : List (String × Json))

/-- Outcome of running a deserializer: a parsed value, a serde error
propagated to the caller, or a process panic (an `unwrap` on an `Err`). -/
inductive DeOutcome (α : Type) where
  | ok (a : α)
  | err
  | panic
deriving DecidableEq, Repr

/-- Field lookup in a JSON object. -/
def jLookup (fields : List (String × Json)) (key : String) : Option Json :=
  (fields.find? (fun f => f.1 == key)).map (fun f => f.2)

/-- Deserializes a JSON string. -/
def parseJString : Json → Option String
  | Json.str s => some s
  | _ => none

/-- Deserializes a JSON boolean. -/
def parseJBool : Json → Option Bool
  | Json.bool b => some b
  | _ => none

/-- serde semantics for an `Option<T>` struct field: absent or `null` is
`None`; any other value must deserialize as `T`. -/
def parseOptField {α : Type} (p : Json → Option α)
    (fields : List (String × Json)) (key : String) : Option (Option α) :=
  match jLookup fields key with
  | none => some none
  | some Json.null => some none
  | some j => (p j).map some

/-- `RuleAction` deserialization (version.rs lines 481-487: renamed to
lowercase "allow"/"disallow"). -/
def parseRuleAction : Json → Option RuleAction
  | Json.str "allow" => some RuleAction.Allow
  | Json.str "disallow" => some RuleAction.Disallow
  | _ => none

/-- `OsRule` deserialization (version.rs lines 474-479). -/
def parseOsRule : Json → Option OsRule
  | Json.obj fields => do
      let name ← parseOptField parseJString fields "name"
      let version ← parseOptField parseJString fields "version"
      let arch ← parseOptField parseJString fields "arch"
      some ⟨name, version, arch⟩
  | _ => none

/-- `HashMap<String, bool>` deserialization for a rule's feature
predicates. -/
def parseFeatureMap : Json → Option (List (String × Bool))
  | Json.obj fields =>
      fields.mapM (fun f => (parseJBool f.2).map (fun b => (f.1, b)))
  | _ => none

/-- `Rule` deserialization (version.rs lines 467-472): `action` is
required, `os` and `features` are optional. -/
def parseRule : Json → Option Rule
  | Json.obj fields => do
      let action ← jLookup fields "action" >>= parseRuleAction
      let os ← parseOptField parseOsRule fields "os"
      let features ← parseOptField parseFeatureMap fields "features"
      some ⟨action, os, features⟩
  | _ => none

/-- `Vec<Rule>` deserialization. -/
def parseRules : Json → Option (List Rule)
  | Json.arr elems => elems.mapM parseRule
  | _ => none

/-- `ArgumentValue` deserialization (version.rs lines 230-235, untagged):
a string is `SINGLE`, an array of strings is `VEC`, anything else is a
serde error. -/
def parseArgumentValue : Json → Option ArgumentValue
  | Json.str s => some (ArgumentValue.SINGLE s)
  | Json.arr elems => (elems.mapM parseJString).map ArgumentValue.VEC
  | _ => none

/-- `string_or_struct` (version.rs lines 257-290): a string visits the
infallible `FromStr` for `Argument` (lines 237-243), producing a bare
single token with no rules; a map deserializes the `Argument` struct
(`value` required, `rules` optional); any other shape is a serde error. -/
def string_or_struct (j : Json) : Option Argument :=
  match j with
  | Json.str s => some ⟨none, ArgumentValue.SINGLE s⟩
  | Json.obj fields => do
      let rules ← parseOptField parseRules fields "rules"
      let value ← jLookup fields "value" >>= parseArgumentValue
      some ⟨rules, value⟩
  | _ => none

/-- `vec_argument` (version.rs lines 246-255): the deserializer for the
`game`/`jvm` argument vectors runs `Vec::deserialize(deserializer)
.unwrap()` — when the value is not an array, or any element is neither a
string nor a valid argument map, the unwrap panics the process instead of
surfacing the serde error to the caller. -/
def vec_argument (j : Json) : DeOutcome (List Argument) :=
  match j with
  | Json.arr elems =>
      match elems.mapM string_or_struct with
      | some args => DeOutcome.ok args
      | none => DeOutcome.panic
  | _ => DeOutcome.panic

/-! ## Argument building (`version.rs` lines 156-190) -/

/-- `ArgumentDeclaration::check_rules_and_add` (version.rs lines 175-190):
arguments whose rule list (when present) evaluates to false for the
enabled features are skipped; surviving single values are pushed and list
values appended, preserving order. The Rust signature is fallible only
because the rule interpreter's is; the modelled interpreter is total. -/
def check_rules_and_add (command_arguments : List String) (args : List Argument)
    (host : Host) (features : List String) : List String :=
  args.foldl
    (fun acc argument =>
      match argument.rules with
      | some rules =>
          if check_condition rules host features then
            match argument.value with
            | ArgumentValue.SINGLE v => acc ++ [v]
            | ArgumentValue.VEC vs => acc ++ vs
          else acc
      | none =>
          match argument.value with
          | ArgumentValue.SINGLE v => acc ++ [v]
          | ArgumentValue.VEC vs => acc ++ vs)
    command_arguments

/-- `ArgumentDeclaration::add_game_args_to_vec` (version.rs lines
156-173): the Legacy (V14) variant splits its single string with
`split(" ")` — every token, including empty ones between consecutive
spaces, is appended — and an absent string is the "no game arguments
specified" condition; the Structured (V21) variant filters its game
token list through the rules. -/
def ArgumentDeclaration.add_game_args_to_vec (decl : ArgumentDeclaration)
    (command_arguments : List String) (host : Host) (features : List String) :
    Except LauncherError (List String) :=
  match decl with
  | ArgumentDeclaration.V14 d =>
      match d.minecraft_arguments with
      | none => Except.error (LauncherError.InvalidVersionProfile
          "no game arguments specified")
      | some s => Except.ok (command_arguments ++ splitStr ' ' s)
  | ArgumentDeclaration.V21 d =>
      Except.ok (check_rules_and_add command_arguments d.arguments.game host features)

/-! ## Launcher options persistence (`app_data.rs`) -/

/-- `LoginData` from `crate::app::api` (not under `src/`); its exact field
list is fixed by the exhaustive struct literal in `LauncherOptions::store`
(app_data.rs lines 95-103). -/
structure LoginData where
  uuid : String
  username : String
  mc_token : String
  access_token : String
  refresh_token : String
  norisk_token : String
  experimental_token : Option String
deriving DecidableEq, Repr

/-- `LauncherOptions` (app_data.rs lines 18-44). -/
structure LauncherOptions where
  keep_launcher_open : Bool
  experimental_mode : Bool
  data_path : String
  memory_percentage : Int
  custom_java_path : String
  custom_java_args : String
  theme : String
  latest_branch : Option String
  latest_dev_branch : Option String
  current_uuid : Option String
  accounts : List LoginData
  concurrent_downloads : Int
deriving DecidableEq, Repr

/-- The token-stripped account written to the options file (app_data.rs
lines 93-104): identity fields kept, every token field blanked, the
experimental token absent. -/
def scrubAccount (account : LoginData) : LoginData :=
  { uuid := account.uuid
    username := account.username
    mc_token := ""
    access_token := ""
    refresh_token := ""
    norisk_token := ""
    experimental_token := none }

/-- `LauncherOptions::store` (app_data.rs lines 73-122): all account
tokens are first pushed to the OS keyring (modelled as always accepting a
password); `account.experimental_token.clone().unwrap()` (line 89) panics
when that token is absent, modelled as `none` — in that case no options
document is written. Otherwise the written document carries the scrubbed
accounts and the current values of every non-account field. -/
def LauncherOptions.store (o : LauncherOptions) : Option LauncherOptions :=
  if o.accounts.all (fun account => account.experimental_token.isSome) then
    some { o with accounts := o.accounts.map scrubAccount }
  else
    none

/-- An account whose experimental token was never populated. -/
def accountNoExpToken : LoginData :=
  ⟨"069a79f4-44e9-4726-a5be-fca90e38aaf5", "alice",
    "mc-tok", "acc-tok", "ref-tok", "nrc-tok", none⟩

/-- An account with every token populated. -/
def accountFull : LoginData :=
  ⟨"069a79f4-44e9-4726-a5be-fca90e38aaf5", "alice",
    "mc-tok", "acc-tok", "ref-tok", "nrc-tok", some "exp-tok"⟩

/-- A launcher-options value holding a single account without an
experimental token. -/
def optsNoExpToken : LauncherOptions :=
  { keep_launcher_open := true
    experimental_mode := false
    data_path := ""
    memory_percentage := 35
    custom_java_path := ""
    custom_java_args := ""
    theme := "DARK"
    latest_branch := none
    latest_dev_branch := none
    current_uuid := none
    accounts := [accountNoExpToken]
    concurrent_downloads := 10 }

/-- A launcher-options value holding a single fully-populated account. -/
def optsOneAccount : LauncherOptions :=
  { optsNoExpToken with accounts := [accountFull] }

/-- C2 counterexample: an asset object whose content-addressed destination
already holds a file with a digest different from the declared hash is
reported "not downloaded" with the stale file kept — no checksum is
computed or compared, and no deletion or redownload happens; moreover a
fresh download whose served bytes mismatch the declared hash is stored and
reported as a success, never a fatal condition. -/
theorem asset_download_skips_checksum_flow :
    AssetObject.download ⟨"aabbccdd", 10⟩ "aabbccdd" ⟨true, some "deadbeef"⟩ =
      (false, ⟨true, some "deadbeef"⟩) ∧
    AssetObject.download ⟨"aabbccdd", 10⟩ "0badc0de" ⟨true, none⟩ =
      (true, ⟨true, some "0badc0de"⟩) :=
  ⟨rfl, rfl⟩

/-- C2 (amended): acquiring an asset object is existence-based only: it
downloads exactly when the content-addressed destination file is absent,
keeps an existing file verbatim without computing or comparing its
checksum (regardless of mismatch with the declared hash), and stores the
downloaded bytes without any post-download checksum verification. -/
theorem asset_download_existence_only (a : AssetObject) (remoteContent : String)
    (st : AssetStore) :
    (a.download remoteContent st).1 = st.file.isNone ∧
    (a.download remoteContent st).2.file =
      (if st.file.isNone then some remoteContent else st.file) ∧
    (a.download remoteContent st).2.dirExists = true := by
  rcases st with ⟨d, f⟩
  cases d <;> cases f <;> simp [AssetObject.download]

/-- C3: a library whose rule list evaluates to false for the host and
feature set resolves to none; when the rules allow it, resolution returns
the explicit `downloads.artifact` metadata verbatim when it exists, and
otherwise the coordinate-synthesized descriptor (maven path against the
declared or default repository base, checksum and size unset). -/
theorem library_resolution_rule_gated (lib : Library) (host : Host)
    (features : List String) :
    (check_condition lib.rules host features = false →
      lib.resolve host features = none) ∧
    (check_condition lib.rules host features = true →
      lib.resolve host features = some lib.get_library_download ∧
      (∀ artifact, lib.downloads.bind (fun d => d.artifact) = some artifact →
        lib.get_library_download = Except.ok artifact.toInfo) ∧
      (lib.downloads.bind (fun d => d.artifact) = none →
        lib.get_library_download = (get_maven_artifact_path lib.name).map
          (fun path =>
            { path := path, sha1 := none, size := none,
              url := lib.url.getD "https://libraries.minecraft.net/" ++ path }))) := by
  constructor
  · intro h
    simp [Library.resolve, h]
  · intro h
    refine ⟨by simp [Library.resolve, h], ?_, ?_⟩
    · intro artifact ha
      simp [Library.get_library_download, ha]
    · intro ha
      simp only [Library.get_library_download, ha]
      cases get_maven_artifact_path lib.name <;> rfl

/-- Witness for C3: a rule-free library with coordinate
`com.example:foo:1.2.3` and no explicit metadata resolves (the empty rule
list allows every host) to the synthesized default-repository descriptor,
and a disallow-everything library resolves to none. -/
theorem library_resolution_rule_gated_witness :
    check_condition [] ⟨"linux", "6.1", "x86_64"⟩ [] = true ∧
    Library.resolve ⟨"com.example:foo:1.2.3", none, none, [], none⟩
      ⟨"linux", "6.1", "x86_64"⟩ [] =
      some (Except.ok ⟨"com/example/foo/1.2.3/foo-1.2.3.jar", none, none,
        "https://libraries.minecraft.net/com/example/foo/1.2.3/foo-1.2.3.jar"⟩) ∧
    check_condition [⟨RuleAction.Disallow, none, none⟩]
      ⟨"linux", "6.1", "x86_64"⟩ [] = false ∧
    Library.resolve ⟨"com.example:foo:1.2.3", none, none,
      [⟨RuleAction.Disallow, none, none⟩], none⟩ ⟨"linux", "6.1", "x86_64"⟩ [] = none := by
  have h1 := (library_resolution_rule_gated
    ⟨"com.example:foo:1.2.3", none, none, [], none⟩
    ⟨"linux", "6.1", "x86_64"⟩ []).2 rfl
  have h2 := (library_resolution_rule_gated
    ⟨"com.example:foo:1.2.3", none, none,
      [⟨RuleAction.Disallow, none, none⟩], none⟩
    ⟨"linux", "6.1", "x86_64"⟩ []).1 rfl
  exact ⟨rfl, h1.1.trans (by rfl), rfl, h2⟩

/-- The checksum-determination block never touches the destination file. -/
theorem resolveSha1_destFile (info : LibraryDownloadInfo) (remote : Remote)
    (st : DlState) : (info.resolveSha1 remote st).2.1.destFile = st.destFile := by
  rcases info with ⟨p, sha, sz, u⟩
  cases sha <;> rcases st with ⟨sc, df⟩ <;> cases sc <;>
    cases hr : remote.sidecarResp <;>
    simp_all [LibraryDownloadInfo.resolveSha1]

/-- The sidecar endpoint is queried exactly when the descriptor embeds no
checksum and no local side-file exists. -/
theorem resolveSha1_fetches (info : LibraryDownloadInfo) (remote : Remote)
    (st : DlState) :
    (info.resolveSha1 remote st).2.2 =
      (if info.sha1.isNone && st.sidecar.isNone then 1 else 0) := by
  rcases info with ⟨p, sha, sz, u⟩
  cases sha <;> rcases st with ⟨sc, df⟩ <;> cases sc <;>
    cases hr : remote.sidecarResp <;>
    simp_all [LibraryDownloadInfo.resolveSha1]

/-- Any side-file write performed by the checksum-determination block
stores exactly the checksum it resolved to. -/
theorem resolveSha1_sidecar (info : LibraryDownloadInfo) (remote : Remote)
    (st : DlState) :
    (info.resolveSha1 remote st).2.1.sidecar = st.sidecar ∨
    (info.resolveSha1 remote st).2.1.sidecar = (info.resolveSha1 remote st).1 := by
  rcases info with ⟨p, sha, sz, u⟩
  cases sha <;> rcases st with ⟨sc, df⟩ <;> cases sc <;>
    cases hr : remote.sidecarResp <;>
    simp_all [LibraryDownloadInfo.resolveSha1]

/-- C4 counterexample: for a descriptor with no embedded checksum and no
local side-file, a destination already holding a file that matches the
expected checksum still costs one network request — the checksum is
fetched from the sidecar endpoint before the existence check — so the
acquisition does not perform zero network requests, although it does
return "not downloaded". -/
theorem download_valid_file_still_fetches_sidecar :
    (infoNoSha.resolveSha1 ⟨some "abc123", "abc123"⟩ ⟨none, some "abc123"⟩).1 =
      some "abc123" ∧
    DlState.destFile ⟨none, some "abc123"⟩ = some "abc123" ∧
    (infoNoSha.download ⟨some "abc123", "abc123"⟩ ⟨none, some "abc123"⟩).outcome =
      DlOutcome.notDownloaded ∧
    (infoNoSha.download ⟨some "abc123", "abc123"⟩ ⟨none, some "abc123"⟩).sha1Fetches +
      (infoNoSha.download ⟨some "abc123", "abc123"⟩ ⟨none, some "abc123"⟩).artifactFetches = 1 :=
  ⟨rfl, rfl, rfl, rfl⟩

/-- C4 (amended): when the destination already holds a file whose digest
matches the resolved expected checksum, the acquisition performs zero
artifact downloads, keeps the existing file, and returns "not
downloaded"; the only network request it may perform is a single
checksum-sidecar fetch, which happens exactly when the descriptor embeds
no checksum and no local side-file exists. -/
theorem download_valid_file_skips (info : LibraryDownloadInfo) (remote : Remote)
    (st : DlState) (s : String)
    (hsha : (info.resolveSha1 remote st).1 = some s)
    (hdest : st.destFile = some s) :
    (info.download remote st).outcome = DlOutcome.notDownloaded ∧
    (info.download remote st).artifactFetches = 0 ∧
    (info.download remote st).state.destFile = st.destFile ∧
    (info.download remote st).sha1Fetches =
      (if info.sha1.isNone && st.sidecar.isNone then 1 else 0) := by
  have hdf := resolveSha1_destFile info remote st
  have hf := resolveSha1_fetches info remote st
  simp only [LibraryDownloadInfo.download]
  rw [hdf, hdest, hsha]
  simp [hdf, hdest, hf]

/-- Witness for C4 (amended): a descriptor with an embedded checksum and a
matching existing file is skipped with no network traffic at all. -/
theorem download_valid_file_skips_witness :
    ((⟨"foo.jar", some "abc123", some 3, "https://repo/foo.jar"⟩ :
        LibraryDownloadInfo).resolveSha1 ⟨none, "abc123"⟩ ⟨none, some "abc123"⟩).1 =
      some "abc123" ∧
    DlState.destFile ⟨none, some "abc123"⟩ = some "abc123" ∧
    ((⟨"foo.jar", some "abc123", some 3, "https://repo/foo.jar"⟩ :
        LibraryDownloadInfo).download ⟨none, "abc123"⟩ ⟨none, some "abc123"⟩).outcome =
      DlOutcome.notDownloaded ∧
    ((⟨"foo.jar", some "abc123", some 3, "https://repo/foo.jar"⟩ :
        LibraryDownloadInfo).download ⟨none, "abc123"⟩ ⟨none, some "abc123"⟩).artifactFetches = 0 ∧
    ((⟨"foo.jar", some "abc123", some 3, "https://repo/foo.jar"⟩ :
        LibraryDownloadInfo).download ⟨none, "abc123"⟩ ⟨none, some "abc123"⟩).sha1Fetches = 0 := by
  have h := download_valid_file_skips
    ⟨"foo.jar", some "abc123", some 3, "https://repo/foo.jar"⟩
    ⟨none, "abc123"⟩ ⟨none, some "abc123"⟩ "abc123" rfl rfl
  exact ⟨rfl, rfl, h.1, h.2.1, h.2.2.2.trans (by rfl)⟩

/-- C5: when a known expected checksum exists and the downloaded bytes
mismatch it, the acquisition ends in the fatal checksum-mismatch outcome —
never in a "downloaded" or "not downloaded" success — and it writes no
side-file claiming success: the local side-file is either untouched or
holds the expected checksum, which differs from the corrupt destination
file's digest. -/
theorem download_mismatch_fatal (info : LibraryDownloadInfo) (remote : Remote)
    (st : DlState) (s : String)
    (hsha : (info.resolveSha1 remote st).1 = some s)
    (hmis : remote.content ≠ s)
    (hstale : st.destFile ≠ some s) :
    (info.download remote st).outcome = DlOutcome.checksumMismatch ∧
    (info.download remote st).state.destFile = some remote.content ∧
    ((info.download remote st).state.sidecar = st.sidecar ∨
      ((info.download remote st).state.sidecar = some s ∧
        (info.download remote st).state.destFile ≠
          (info.download remote st).state.sidecar)) := by
  have hdf := resolveSha1_destFile info remote st
  have hsc := resolveSha1_sidecar info remote st
  rw [hsha] at hsc
  simp only [LibraryDownloadInfo.download]
  rw [hdf, hsha]
  rcases hd : st.destFile with _ | h
  · simp only [downloadAndCheck, if_neg hmis]
    refine ⟨by trivial, by trivial, ?_⟩
    rcases hsc with h1 | h1
    · exact Or.inl h1
    · exact Or.inr ⟨h1, by simp [h1]; intro he; exact hmis he⟩
  · have hne : h ≠ s := fun he => hstale (hd ▸ he ▸ rfl)
    simp only [if_neg hne, downloadAndCheck, if_neg hmis]
    refine ⟨by trivial, by trivial, ?_⟩
    rcases hsc with h1 | h1
    · exact Or.inl h1
    · exact Or.inr ⟨h1, by simp [h1]; intro he; exact hmis he⟩

/-- Witness for C5: downloading a descriptor with embedded checksum
"abc123" over a connection serving corrupt bytes hashing to "ffff" ends in
the fatal mismatch outcome with the side-file untouched. -/
theorem download_mismatch_fatal_witness :
    ((⟨"foo.jar", some "abc123", some 3, "https://repo/foo.jar"⟩ :
        LibraryDownloadInfo).download ⟨none, "ffff"⟩ ⟨none, none⟩).outcome =
      DlOutcome.checksumMismatch ∧
    ((⟨"foo.jar", some "abc123", some 3, "https://repo/foo.jar"⟩ :
        LibraryDownloadInfo).download ⟨none, "ffff"⟩ ⟨none, none⟩).state.sidecar = none := by
  have h := download_mismatch_fatal
    ⟨"foo.jar", some "abc123", some 3, "https://repo/foo.jar"⟩
    ⟨none, "ffff"⟩ ⟨none, none⟩ "abc123" rfl (by decide) (by simp)
  exact ⟨h.1, rfl⟩

/-- C6: the arguments-section deserializer panics on malformed input —
a structurally malformed arguments vector (a non-array value, or an
element of an invalid shape) hits the unwrap inside `vec_argument` and
crashes instead of being reported to the caller as a malformed-document
error, while well-formed sections parse. -/
theorem vec_argument_panics_on_malformed :
    vec_argument (Json.num 42) = DeOutcome.panic ∧
    vec_argument (Json.arr [Json.num 42]) = DeOutcome.panic ∧
    vec_argument (Json.arr [Json.str "--demo",
        Json.obj [("value", Json.arr [Json.str "-a", Json.str "-b"])]]) =
      DeOutcome.ok [⟨none, ArgumentValue.SINGLE "--demo"⟩,
        ⟨none, ArgumentValue.VEC ["-a", "-b"]⟩] :=
  ⟨rfl, rfl, rfl⟩

/-- C8 counterexample: the Legacy variant's string "--demo  --width"
(two consecutive spaces) is split into three tokens, and the empty token
between the spaces IS appended to the command line, contradicting the
claim that only non-empty tokens are appended. -/
theorem add_game_args_appends_empty_token :
    ArgumentDeclaration.add_game_args_to_vec
        (ArgumentDeclaration.V14 ⟨some "--demo  --width"⟩) []
        ⟨"linux", "6.1", "x86_64"⟩ [] =
      Except.ok ["--demo", "", "--width"] ∧
    "" ∈ ["--demo", "", "--width"] :=
  ⟨rfl, by simp⟩

/-- C8 (amended): building game arguments for the Legacy (V14) schema
splits the single argument string on the space character and appends
every resulting token — empty tokens included, since `split(" ")` keeps
them and, unlike the JVM-argument path, no filtering is applied — and
fails with the "no game arguments specified" condition exactly when the
Legacy string is absent. -/
theorem add_game_args_legacy_spec (s : String) (cmd : List String)
    (host : Host) (features : List String) :
    ArgumentDeclaration.add_game_args_to_vec
      (ArgumentDeclaration.V14 ⟨some s⟩) cmd host features =
      Except.ok (cmd ++ splitStr ' ' s) ∧
    ArgumentDeclaration.add_game_args_to_vec
      (ArgumentDeclaration.V14 ⟨none⟩) cmd host features =
      Except.error (LauncherError.InvalidVersionProfile
        "no game arguments specified") :=
  ⟨rfl, rfl⟩

/-- C9 counterexample: on a launcher-options value holding an account
without an experimental token, `store` panics at the keyring unwrap
before reaching the file write, so no options document is written at all
— the claim does not hold for every `LauncherOptions` value. -/
theorem store_panics_without_experimental_token :
    LauncherOptions.store optsNoExpToken = none :=
  rfl

/-- C9 (amended): for every launcher-options value whose accounts all
carry an experimental token (otherwise `store` panics on the keyring
unwrap before writing), the written options document keeps every
non-account field at its current value while every account is scrubbed:
mc-token, access-token, refresh-token and norisk-token are empty strings
and the experimental token is absent. -/
theorem store_scrubs_account_tokens (o : LauncherOptions)
    (h : ∀ account ∈ o.accounts, account.experimental_token.isSome) :
    o.store = some { o with accounts := o.accounts.map scrubAccount } ∧
    (∀ account ∈ o.accounts.map scrubAccount,
      account.mc_token = "" ∧ account.access_token = "" ∧
      account.refresh_token = "" ∧ account.norisk_token = "" ∧
      account.experimental_token = none) := by
  have hall : o.accounts.all (fun account => account.experimental_token.isSome) = true := by
    rw [List.all_eq_true]
    intro x hx
    exact h x hx
  refine ⟨by simp [LauncherOptions.store, hall], ?_⟩
  intro account ha
  rw [List.mem_map] at ha
  obtain ⟨b, hb, rfl⟩ := ha
  exact ⟨rfl, rfl, rfl, rfl, rfl⟩

/-- Witness for C9 (amended): storing a value with one fully-populated
account writes the document with that account scrubbed. -/
theorem store_scrubs_account_tokens_witness :
    LauncherOptions.store optsOneAccount =
      some { optsOneAccount with accounts := optsOneAccount.accounts.map scrubAccount } ∧
    (∀ account ∈ optsOneAccount.accounts.map scrubAccount,
      account.mc_token = "" ∧ account.access_token = "" ∧
      account.refresh_token = "" ∧ account.norisk_token = "" ∧
      account.experimental_token = none) :=
  store_scrubs_account_tokens optsOneAccount (by decide)

/-- C7: `merge_larger` on (Some 5, None) is Some 5, on (Some 3, Some 7) is
Some 7, on (Some 7, Some 7) is Some 7, on (None, None) is None; in general
it takes the larger value when both sides are present, adopts the present
side when only one is present, and leaves equal values unchanged. -/
theorem merge_larger_spec :
    VersionProfile.merge_larger (some (5 : Int)) none = some 5 ∧
    VersionProfile.merge_larger (some (3 : Int)) (some 7) = some 7 ∧
    VersionProfile.merge_larger (some (7 : Int)) (some 7) = some 7 ∧
    VersionProfile.merge_larger (none : Option Int) none = none ∧
    (∀ a b : Int, VersionProfile.merge_larger (some a) (some b) = some (max a b)) ∧
    (∀ a : Int, VersionProfile.merge_larger (some a) none = some a) ∧
    (∀ b : Int, VersionProfile.merge_larger none (some b) = some b) ∧
    (∀ a : Int, VersionProfile.merge_larger (some a) (some a) = some a) := by
  refine ⟨by decide, by decide, by decide, rfl, ?_, fun a => rfl, fun b => rfl, ?_⟩
  · intro a b
    simp only [VersionProfile.merge_larger]
    rcases lt_or_ge a b with h | h
    · rw [if_pos h, max_eq_right h.le]
    · rw [if_neg (not_lt.mpr h), max_eq_left h]
  · intro a
    simp [VersionProfile.merge_larger]

/-- C10: `merge` never changes the child's identifier, version-type tag or
`inheritsFrom` field, whether it succeeds or fails. -/
theorem merge_preserves_identity_fields (child parent : VersionProfile) :
    (child.merge parent).2.id = child.id ∧
    (child.merge parent).2.version_type = child.version_type ∧
    (child.merge parent).2.inherits_from = child.inherits_from := by
  unfold VersionProfile.merge
  cases hc : child.arguments <;> cases hp : parent.arguments <;> simp_all

/-- C1 counterexample: merging the V14 child with the V21 parent fails with
the incompatible-inheritance condition, yet the child is not left otherwise
unmodified by the failed merge — its `assets` field, absent before the call,
has adopted the parent's value. -/
theorem merge_incompatible_modifies_child :
    (childV14.merge parentV21).1 = Except.error (LauncherError.InvalidVersionProfile
      "version profile inherits from incompatible profile") ∧
    childV14.assets = none ∧
    (childV14.merge parentV21).2.assets = some "1.8" :=
  ⟨rfl, rfl, rfl⟩

/-- C1 (amended): merging two profiles of differing argument-schema variants
fails with the "version profile inherits from incompatible profile"
condition, but the child is not left otherwise unmodified: every
non-argument field merge (option adoption, larger-numeric merge, library
append) has already been applied when the variant check fails; only the
argument schema — along with the identifier, version type and
`inheritsFrom` fields, which `merge` never touches — keeps its pre-merge
value. -/
theorem merge_incompatible_fails_after_field_merges (child parent : VersionProfile)
    (h : (∃ a b, child.arguments = ArgumentDeclaration.V14 a ∧
            parent.arguments = ArgumentDeclaration.V21 b) ∨
         (∃ a b, child.arguments = ArgumentDeclaration.V21 a ∧
            parent.arguments = ArgumentDeclaration.V14 b)) :
    (child.merge parent).1 = Except.error (LauncherError.InvalidVersionProfile
      "version profile inherits from incompatible profile") ∧
    (child.merge parent).2 = { child with
      asset_index_location :=
        VersionProfile.merge_options child.asset_index_location parent.asset_index_location
      assets := VersionProfile.merge_options child.assets parent.assets
      minimum_launcher_version :=
        VersionProfile.merge_larger child.minimum_launcher_version parent.minimum_launcher_version
      downloads := VersionProfile.merge_options child.downloads parent.downloads
      compliance_level :=
        VersionProfile.merge_larger child.compliance_level parent.compliance_level
      libraries := child.libraries ++ parent.libraries
      main_class := VersionProfile.merge_options child.main_class parent.main_class
      logging := VersionProfile.merge_options child.logging parent.logging } := by
  unfold VersionProfile.merge
  rcases h with ⟨a, b, ha, hb⟩ | ⟨a, b, ha, hb⟩ <;> simp_all

/-- Witness for C1 (amended): evaluated on the concrete V14 child and V21
parent, the failed merge surfaces the condition and the child has adopted
the parent's assets tag, launcher-version floor and main class. -/
theorem merge_incompatible_fails_after_field_merges_witness :
    (childV14.merge parentV21).1 = Except.error (LauncherError.InvalidVersionProfile
      "version profile inherits from incompatible profile") ∧
    (childV14.merge parentV21).2 = { childV14 with
      assets := some "1.8"
      minimum_launcher_version := some 7
      main_class := some "net.minecraft.client.main.Main" } := by
  have h := merge_incompatible_fails_after_field_merges childV14 parentV21
    (Or.inl ⟨⟨some "--demo"⟩, ⟨⟨[], []⟩⟩, rfl, rfl⟩)
  exact ⟨h.1, h.2.trans (by rfl)⟩

end Launcher
